import Mathlib

/-!
Shallow embedding of the tts-service repository (src/config/settings.py,
src/core/tts.py, src/core/websocket_server.py, src/app.py).

Modelling conventions:
* Byte strings are `List Nat`.
* `asyncio.get_event_loop().time()` is an opaque clock; every emission site
  receives the current reading as a `Nat` argument (`now`).  No claim inspects
  the value of a timestamp, only its presence, which is captured structurally.
* The base64 transport encoding of a chunk payload is a bijection that no
  claim inspects; the `audio_data` field therefore carries the raw payload
  bytes.  `chunk_size` is computed from the raw payload, exactly as
  `len(audio_chunk)` is in the source.
* The synthesis engine (pyttsx3) is external.  Its observable effect in
  `text_to_speech_stream` is the content of the scratch wav file:
  `engineOut = some audio` means the file exists and holds `audio`;
  `engineOut = none` means the file is missing or reading it raised
  (both paths `yield b""` in the source).
* A failing `websocket.send` is modelled by `failAt = some (k, e)`: the k-th
  send (1-based) inside `synthesize_and_stream`'s try block raises an
  exception whose text is `e`; the except branch then sends the error
  message.  `failAt = none` means every send succeeds.
-/

/-- Mirror of `config/settings.py` `TTSSettings` (volume 0.9 as an exact
rational). -/
structure TTSSettings where
  HOST : String
  PORT : Nat
  RATE : Nat
  VOLUME : Rat
  VOICE_INDEX : Nat
  CHUNK_SIZE : Nat
  MAX_MESSAGE_SIZE : Nat
deriving Repr, DecidableEq

/-- The global `settings` instance of `config/settings.py`. -/
def settings : TTSSettings :=
  { HOST := "0.0.0.0"
    PORT := 8765
    RATE := 150
    VOLUME := 9 / 10
    VOICE_INDEX := 0
    CHUNK_SIZE := 4096
    MAX_MESSAGE_SIZE := 10 * 1024 * 1024 }

/-- The dictionary returned by `SpeechSynthesizer.get_voice_info`
(src/core/tts.py). -/
structure VoiceInfo where
  rate : Nat
  volume : Rat
  voice_index : Nat
  current_voice : String
  available_voices : Nat
  voices : List (Nat × String)
deriving Repr, DecidableEq

/-- The outbound wire messages, one constructor per `json.dumps` dict literal
in src/core/tts.py and src/core/websocket_server.py.  Each constructor
carries exactly the fields the corresponding dict literal has: in the source,
`welcome` has no `request_id` (it has `connection_id`) and `audio_chunk` has
no `timestamp`. -/
inductive OutMsg where
  | welcome (connection_id service version : String)
      (supported_formats : List String) (voice_info : VoiceInfo)
      (timestamp : Nat)
  | voice_info (request_id : String) (data : VoiceInfo) (timestamp : Nat)
  | synthesis_start (request_id : String) (text_length : Nat) (timestamp : Nat)
  | audio_chunk (request_id : String) (chunk_index : Nat)
      (audio_data : List Nat) (chunk_size : Nat) (total_size : Nat)
      (is_final : Bool)
  | synthesis_complete (request_id : String) (total_chunks : Nat)
      (total_size : Nat) (timestamp : Nat)
  | pong (request_id : String) (timestamp : Nat)
  | error (request_id : String) (message : String) (timestamp : Nat)
deriving Repr, DecidableEq

/-- The JSON keys of each outbound message, transcribed from the dict
literals in the source. -/
def OutMsg.keys : OutMsg → List String
  | .welcome _ _ _ _ _ _ =>
      ["type", "connection_id", "service", "version", "supported_formats",
       "voice_info", "timestamp"]
  | .voice_info _ _ _ => ["type", "request_id", "data", "timestamp"]
  | .synthesis_start _ _ _ =>
      ["type", "request_id", "text_length", "timestamp"]
  | .audio_chunk _ _ _ _ _ _ =>
      ["type", "request_id", "chunk_index", "audio_data", "chunk_size",
       "total_size", "is_final"]
  | .synthesis_complete _ _ _ _ =>
      ["type", "request_id", "total_chunks", "total_size", "timestamp"]
  | .pong _ _ => ["type", "request_id", "timestamp"]
  | .error _ _ _ => ["type", "request_id", "message", "timestamp"]

/-- Projection of the fields of an `audio_chunk` message that the claims
talk about. -/
structure AudioFields where
  index : Nat
  payload : List Nat
  size : Nat
  total : Nat
deriving Repr, DecidableEq

def audioOf : OutMsg → Option AudioFields
  | .audio_chunk _ i p s t _ => some ⟨i, p, s, t⟩
  | _ => none

def completeOf : OutMsg → Option (Nat × Nat)
  | .synthesis_complete _ n t _ => some (n, t)
  | _ => none

def errorOf : OutMsg → Option (String × String)
  | .error rid msg _ => some (rid, msg)
  | _ => none

def OutMsg.isAudioChunk : OutMsg → Bool
  | .audio_chunk _ _ _ _ _ _ => true
  | _ => false

def OutMsg.isComplete : OutMsg → Bool
  | .synthesis_complete _ _ _ _ => true
  | _ => false

def OutMsg.isError : OutMsg → Bool
  | .error _ _ _ => true
  | _ => false

def OutMsg.isWelcome : OutMsg → Bool
  | .welcome _ _ _ _ _ _ => true
  | _ => false

/-- The `while True: chunk = f.read(chunk_size)` loop of
`text_to_speech_stream`: splits the file content into chunks of at most
`c` bytes; `f.read 0` returns the empty byte string, so a chunk size of 0
reads nothing. -/
def chunksOf (c : Nat) (xs : List Nat) : List (List Nat) :=
  if h : c = 0 ∨ xs = [] then []
  else xs.take c :: chunksOf c (xs.drop c)
termination_by xs.length
decreasing_by
  push_neg at h
  have hx : 0 < xs.length := List.length_pos.mpr h.2
  simp only [List.length_drop]
  omega

/-- Python's `not text or len(text.strip()) < 1` / `len(text.strip()) == 0`:
true exactly when the text is empty or consists solely of whitespace. -/
def isBlank (text : String) : Bool :=
  text.toList.all (fun ch => ch.isWhitespace)

/-- `SpeechSynthesizer.text_to_speech_stream` (src/core/tts.py): the
sequence of values the async generator yields.  Empty or whitespace-only
text yields a single empty byte string; otherwise the scratch wav file is
read in `CHUNK_SIZE` pieces if it exists, and a single empty byte string is
yielded if it does not (or if reading raised). -/
def text_to_speech_stream (text : String) (chunk_size : Nat)
    (engineOut : Option (List Nat)) : List (List Nat) :=
  if isBlank text then [[]]
  else
    match engineOut with
    | some audio => chunksOf chunk_size audio
    | none => [[]]

/-- The file-system effect of `text_to_speech_stream`: `fs` is the set of
live scratch files, `tmp` the name `tempfile.NamedTemporaryFile` picks.  On
the non-empty-text path the file is created and the `finally` block unlinks
it; on the empty-text path the generator returns before creating anything.
Returns the yielded chunks together with the final file set. -/
def text_to_speech_stream_fs (text : String) (chunk_size : Nat)
    (engineOut : Option (List Nat)) (fs : List String) (tmp : String) :
    List (List Nat) × List String :=
  if isBlank text then ([[]], fs)
  else
    let fs1 := tmp :: fs
    let chunks :=
      match engineOut with
      | some audio => chunksOf chunk_size audio
      | none => [[]]
    (chunks, fs1.erase tmp)

/-- The `async for` body of `synthesize_and_stream`: walks the yielded
chunks, skips empty ones (`if not audio_chunk: continue`), increments
`chunk_index`, accumulates `total_size`, and emits one `audio_chunk`
message per non-empty chunk.  Returns the emitted messages together with
the final values of `chunk_index` and `total_size`. -/
def streamLoop (request_id : String) (chunks : List (List Nat))
    (chunk_index total_size : Nat) : List OutMsg × Nat × Nat :=
  match chunks with
  | [] => ([], chunk_index, total_size)
  | c :: rest =>
    if c.isEmpty then streamLoop request_id rest chunk_index total_size
    else
      let idx := chunk_index + 1
      let tot := total_size + c.length
      let r := streamLoop request_id rest idx tot
      (.audio_chunk request_id idx c c.length tot false :: r.1, r.2)

/-- The sequence of `websocket.send` calls the try block of
`synthesize_and_stream` attempts: `synthesis_start`, one `audio_chunk` per
non-empty chunk, then `synthesis_complete` carrying the final loop
counters. -/
def attemptedSends (request_id text : String) (chunks : List (List Nat))
    (now : Nat) : List OutMsg :=
  let r := streamLoop request_id chunks 0 0
  .synthesis_start request_id text.length now
    :: r.1 ++ [.synthesis_complete request_id r.2.1 r.2.2 now]

/-- `SpeechSynthesizer.synthesize_and_stream` (src/core/tts.py): the
messages actually written to the websocket.  If the k-th send raises
(`failAt = some (k, e)`), the sends before it have gone out and the except
branch sends the error message; otherwise all attempted sends go out. -/
def synthesize_and_stream (request_id text : String)
    (chunks : List (List Nat)) (now : Nat)
    (failAt : Option (Nat × String)) : List OutMsg :=
  let sends := attemptedSends request_id text chunks now
  match failAt with
  | none => sends
  | some (k, e) =>
    if 1 ≤ k ∧ k ≤ sends.length then
      sends.take (k - 1) ++ [.error request_id ("音频流发送失败: " ++ e) now]
    else sends

/-- The per-message environment of the websocket server: the fresh UUID
used when the inbound message has no `request_id`, the engine and transport
behaviour for a synthesis triggered by this message, the engine's voice
descriptor, and the clock reading. -/
structure Env where
  freshId : String
  engineOut : Option (List Nat)
  failAt : Option (Nat × String)
  voiceInfo : VoiceInfo
  now : Nat

/-- `TTSWebSocketServer._handle_synthesis_request`
(src/core/websocket_server.py): validates the text, else runs the
synthesis/streaming pipeline. -/
def handle_synthesis_request (env : Env) (text request_id : String) :
    List OutMsg :=
  if isBlank text then
    [.error request_id "文本内容不能为空" env.now]
  else if 10000 < text.length then
    [.error request_id "文本长度超过限制(10000字符)" env.now]
  else
    synthesize_and_stream request_id text
      (text_to_speech_stream text settings.CHUNK_SIZE env.engineOut)
      env.now env.failAt

/-- The result of `json.loads` on an inbound frame: either a decode error,
or a record of the three fields `_handle_message` reads (each may be
absent). -/
inductive Inbound where
  | malformed
  | parsed (typ request_id text : Option String)
deriving Repr, DecidableEq

/-- `TTSWebSocketServer._handle_message` (src/core/websocket_server.py):
decode, default the missing fields (`type` to `""`, `request_id` to a fresh
UUID, `text` to `""`), dispatch on `type`; a decode failure is answered
with an error carrying request id `"invalid"`. -/
def handle_message (env : Env) (msg : Inbound) : List OutMsg :=
  match msg with
  | .malformed => [.error "invalid" "无效的JSON格式" env.now]
  | .parsed typ rid txt =>
    let message_type := typ.getD ""
    let request_id := rid.getD env.freshId
    let text := txt.getD ""
    if message_type = "synthesize" then
      handle_synthesis_request env text request_id
    else if message_type = "get_voices" then
      [.voice_info request_id env.voiceInfo env.now]
    else if message_type = "ping" then
      [.pong request_id env.now]
    else
      [.error request_id ("未知的消息类型: " ++ message_type) env.now]

/-- The `async for message in websocket` loop of `handle_connection`: every
message is handled in order (`_handle_message` catches all exceptions, so
the loop never breaks on a handled message). -/
def handle_messages : List (Env × Inbound) → List OutMsg
  | [] => []
  | (env, m) :: rest => handle_message env m ++ handle_messages rest

/-- Engine/listener state of the running process: whether the
`websockets.serve` listener accepts connections, and whether the pyttsx3
engine is running. -/
structure ServerState where
  accepting : Bool
  engineRunning : Bool
deriving Repr, DecidableEq

/-- `TTSWebSocketServer.start_server`: opens the listener and then awaits
forever. -/
def start_server (s : ServerState) : ServerState :=
  { s with accepting := true }

/-- `TTSWebSocketServer.stop_server` (src/core/websocket_server.py): its
body is `self.tts_engine.stop()` plus a log line — it touches nothing
else. -/
def stop_server (s : ServerState) : ServerState :=
  { s with engineRunning := false }

/-- `TTSService` state (src/app.py). -/
structure ServiceState where
  is_running : Bool
  server : ServerState
deriving Repr, DecidableEq

/-- `TTSService.graceful_shutdown` (src/app.py), non-Windows path: calls
`stop_server` and clears `is_running`. -/
def graceful_shutdown (s : ServiceState) : ServiceState :=
  if s.is_running then
    { is_running := false, server := stop_server s.server }
  else s

/-- Cumulative sums starting from `acc`: element k is `acc` plus the sum of
the first k+1 inputs. -/
def cumFrom (acc : Nat) : List Nat → List Nat
  | [] => []
  | x :: xs => (acc + x) :: cumFrom (acc + x) xs

/-- Closed form of the audio messages `streamLoop` emits when fed the
non-empty chunks `cs`, starting from counters `idx` and `tot`. -/
def expectedAudio (request_id : String) : Nat → Nat → List (List Nat) → List OutMsg
  | _, _, [] => []
  | idx, tot, c :: cs =>
    .audio_chunk request_id (idx + 1) c c.length (tot + c.length) false
      :: expectedAudio request_id (idx + 1) (tot + c.length) cs

theorem streamLoop_eq (request_id : String) :
    ∀ (chunks : List (List Nat)) (idx tot : Nat),
    streamLoop request_id chunks idx tot =
      (expectedAudio request_id idx tot (chunks.filter (fun c => !c.isEmpty)),
       idx + (chunks.filter (fun c => !c.isEmpty)).length,
       tot + ((chunks.filter (fun c => !c.isEmpty)).map List.length).sum) := by
  intro chunks
  induction chunks with
  | nil => intro idx tot; simp [streamLoop, expectedAudio]
  | cons c cs ih =>
    intro idx tot
    by_cases hc : c.isEmpty
    · simp [streamLoop, hc, ih]
    · simp only [streamLoop, hc, if_neg, Bool.not_eq_true]
      rw [ih]
      simp [List.filter_cons, hc, expectedAudio]
      omega

theorem expectedAudio_payload (request_id : String) :
    ∀ (cs : List (List Nat)) (idx tot : Nat),
    ((expectedAudio request_id idx tot cs).filterMap audioOf).map
      AudioFields.payload = cs := by
  intro cs
  induction cs with
  | nil => intro idx tot; simp [expectedAudio]
  | cons c cs ih => intro idx tot; simp [expectedAudio, audioOf, ih]

theorem expectedAudio_size (request_id : String) :
    ∀ (cs : List (List Nat)) (idx tot : Nat),
    ((expectedAudio request_id idx tot cs).filterMap audioOf).map
      AudioFields.size = cs.map List.length := by
  intro cs
  induction cs with
  | nil => intro idx tot; simp [expectedAudio]
  | cons c cs ih => intro idx tot; simp [expectedAudio, audioOf, ih]

theorem expectedAudio_index (request_id : String) :
    ∀ (cs : List (List Nat)) (idx tot : Nat),
    ((expectedAudio request_id idx tot cs).filterMap audioOf).map
      AudioFields.index = List.range' (idx + 1) cs.length := by
  intro cs
  induction cs with
  | nil => intro idx tot; simp [expectedAudio]
  | cons c cs ih =>
    intro idx tot
    simp [expectedAudio, audioOf, ih, List.range'_succ]

theorem expectedAudio_total (request_id : String) :
    ∀ (cs : List (List Nat)) (idx tot : Nat),
    ((expectedAudio request_id idx tot cs).filterMap audioOf).map
      AudioFields.total = cumFrom tot (cs.map List.length) := by
  intro cs
  induction cs with
  | nil => intro idx tot; simp [expectedAudio, cumFrom]
  | cons c cs ih => intro idx tot; simp [expectedAudio, audioOf, ih, cumFrom]

theorem expectedAudio_length (request_id : String) :
    ∀ (cs : List (List Nat)) (idx tot : Nat),
    ((expectedAudio request_id idx tot cs).filterMap audioOf).length
      = cs.length := by
  intro cs
  induction cs with
  | nil => intro idx tot; simp [expectedAudio]
  | cons c cs ih => intro idx tot; simp [expectedAudio, audioOf, ih]

theorem expectedAudio_completeOf (request_id : String) :
    ∀ (cs : List (List Nat)) (idx tot : Nat),
    (expectedAudio request_id idx tot cs).filterMap completeOf = [] := by
  intro cs
  induction cs with
  | nil => intro idx tot; simp [expectedAudio]
  | cons c cs ih => intro idx tot; simp [expectedAudio, completeOf, ih]

theorem expectedAudio_errorOf (request_id : String) :
    ∀ (cs : List (List Nat)) (idx tot : Nat),
    (expectedAudio request_id idx tot cs).filterMap errorOf = [] := by
  intro cs
  induction cs with
  | nil => intro idx tot; simp [expectedAudio]
  | cons c cs ih => intro idx tot; simp [expectedAudio, errorOf, ih]

theorem expectedAudio_countP_complete (request_id : String) :
    ∀ (cs : List (List Nat)) (idx tot : Nat),
    (expectedAudio request_id idx tot cs).countP OutMsg.isComplete = 0 := by
  intro cs
  induction cs with
  | nil => intro idx tot; simp [expectedAudio]
  | cons c cs ih =>
    intro idx tot
    simp [expectedAudio, List.countP_cons, OutMsg.isComplete, ih]

theorem expectedAudio_countP_error (request_id : String) :
    ∀ (cs : List (List Nat)) (idx tot : Nat),
    (expectedAudio request_id idx tot cs).countP OutMsg.isError = 0 := by
  intro cs
  induction cs with
  | nil => intro idx tot; simp [expectedAudio]
  | cons c cs ih =>
    intro idx tot
    simp [expectedAudio, List.countP_cons, OutMsg.isError, ih]

theorem attemptedSends_eq (request_id text : String)
    (chunks : List (List Nat)) (now : Nat) :
    attemptedSends request_id text chunks now =
      .synthesis_start request_id text.length now
        :: expectedAudio request_id 0 0 (chunks.filter (fun c => !c.isEmpty))
        ++ [.synthesis_complete request_id
              (chunks.filter (fun c => !c.isEmpty)).length
              (((chunks.filter (fun c => !c.isEmpty)).map List.length).sum)
              now] := by
  unfold attemptedSends
  rw [streamLoop_eq]
  simp

theorem attemptedSends_audioOf (request_id text : String)
    (chunks : List (List Nat)) (now : Nat) :
    (attemptedSends request_id text chunks now).filterMap audioOf =
      (expectedAudio request_id 0 0
        (chunks.filter (fun c => !c.isEmpty))).filterMap audioOf := by
  rw [attemptedSends_eq]
  simp [audioOf]

theorem attemptedSends_completeOf (request_id text : String)
    (chunks : List (List Nat)) (now : Nat) :
    (attemptedSends request_id text chunks now).filterMap completeOf =
      [((chunks.filter (fun c => !c.isEmpty)).length,
        ((chunks.filter (fun c => !c.isEmpty)).map List.length).sum)] := by
  rw [attemptedSends_eq]
  simp [completeOf, expectedAudio_completeOf]

/-- Claim C1: for every valid synthesize request streamed to completion
(no transport failure), the single `synthesis_complete` message carries
`total_chunks` equal to the number of `audio_chunk` messages sent and
`total_size` equal to the sum of their `chunk_size` fields. -/
theorem synthesis_complete_matches_stream (freshId : String)
    (engineOut : Option (List Nat)) (vi : VoiceInfo) (now : Nat)
    (request_id text : String) (h1 : isBlank text = false)
    (h2 : text.length ≤ 10000) :
    (handle_synthesis_request ⟨freshId, engineOut, none, vi, now⟩
        text request_id).filterMap completeOf =
      [(((handle_synthesis_request ⟨freshId, engineOut, none, vi, now⟩
            text request_id).filterMap audioOf).length,
        (((handle_synthesis_request ⟨freshId, engineOut, none, vi, now⟩
            text request_id).filterMap audioOf).map AudioFields.size).sum)] := by
  unfold handle_synthesis_request
  rw [if_neg (by simp [h1]), if_neg (by omega)]
  dsimp only
  rw [show synthesize_and_stream request_id text
        (text_to_speech_stream text settings.CHUNK_SIZE engineOut) now none
      = attemptedSends request_id text
        (text_to_speech_stream text settings.CHUNK_SIZE engineOut) now
      from rfl]
  rw [attemptedSends_completeOf, attemptedSends_audioOf,
    expectedAudio_length, expectedAudio_size]

/-- Witness for C1: text `"hi"`, a three-byte synthesis result, chunk
boundaries as computed by the code. -/
theorem synthesis_complete_matches_stream_witness :
    (isBlank "hi" = false ∧ "hi".length ≤ 10000) ∧
    (handle_synthesis_request ⟨"f", some [1, 2, 3], none,
        ⟨150, 9 / 10, 0, "v", 1, [(0, "v")]⟩, 0⟩ "hi" "r").filterMap completeOf =
      [(((handle_synthesis_request ⟨"f", some [1, 2, 3], none,
            ⟨150, 9 / 10, 0, "v", 1, [(0, "v")]⟩, 0⟩ "hi" "r").filterMap audioOf).length,
        (((handle_synthesis_request ⟨"f", some [1, 2, 3], none,
            ⟨150, 9 / 10, 0, "v", 1, [(0, "v")]⟩, 0⟩ "hi" "r").filterMap
              audioOf).map AudioFields.size).sum)] :=
  ⟨⟨by decide, by decide⟩,
    synthesis_complete_matches_stream "f" (some [1, 2, 3])
      ⟨150, 9 / 10, 0, "v", 1, [(0, "v")]⟩ 0 "r" "hi" (by decide) (by decide)⟩

/-- Claim C3: within one synthesize request the `chunk_index` values of the
emitted `audio_chunk` messages are exactly `1, 2, ..., N`, and each
message's `total_size` is the cumulative byte count of the payloads sent so
far (current chunk included); `chunk_size` is the current payload's byte
count. -/
theorem audio_chunk_indices_consecutive (request_id text : String)
    (chunks : List (List Nat)) (now : Nat) :
    ((synthesize_and_stream request_id text chunks now none).filterMap
        audioOf).map AudioFields.index =
      List.range' 1 ((synthesize_and_stream request_id text chunks now
        none).filterMap audioOf).length
    ∧ ((synthesize_and_stream request_id text chunks now none).filterMap
        audioOf).map AudioFields.total =
      cumFrom 0 (((synthesize_and_stream request_id text chunks now
        none).filterMap audioOf).map (fun a => a.payload.length))
    ∧ ((synthesize_and_stream request_id text chunks now none).filterMap
        audioOf).map AudioFields.size =
      ((synthesize_and_stream request_id text chunks now none).filterMap
        audioOf).map (fun a => a.payload.length) := by
  have hss : synthesize_and_stream request_id text chunks now none
      = attemptedSends request_id text chunks now := rfl
  rw [hss, attemptedSends_audioOf]
  have hp : (((expectedAudio request_id 0 0
      (chunks.filter (fun c => !c.isEmpty))).filterMap audioOf).map
        (fun a => a.payload.length)) =
      (chunks.filter (fun c => !c.isEmpty)).map List.length := by
    have hc := congrArg (List.map List.length)
      (expectedAudio_payload request_id
        (chunks.filter (fun c => !c.isEmpty)) 0 0)
    rw [List.map_map] at hc
    exact hc
  refine ⟨?_, ?_, ?_⟩
  · rw [expectedAudio_index, expectedAudio_length]
  · rw [hp, expectedAudio_total]
  · rw [hp, expectedAudio_size]

theorem expectedAudio_mem (request_id : String) :
    ∀ (cs : List (List Nat)) (idx tot : Nat) (m : OutMsg),
    m ∈ expectedAudio request_id idx tot cs → m.isAudioChunk = true := by
  intro cs
  induction cs with
  | nil => intro idx tot m hm; simp [expectedAudio] at hm
  | cons c cs ih =>
    intro idx tot m hm
    rcases List.mem_cons.mp hm with h | h
    · subst h; rfl
    · exact ih _ _ m h

theorem isAudioChunk_errorOf (m : OutMsg) (h : m.isAudioChunk = true) :
    errorOf m = none := by
  cases m <;> simp_all [OutMsg.isAudioChunk, errorOf]

theorem isAudioChunk_not_complete (m : OutMsg) (h : m.isAudioChunk = true) :
    m.isComplete = false := by
  cases m <;> simp_all [OutMsg.isAudioChunk, OutMsg.isComplete]

theorem tts_stream_engine_failure (text : String) (c : Nat) :
    text_to_speech_stream text c none = [[]] := by
  unfold text_to_speech_stream
  split <;> rfl

/-- Claim C2 counterexample: for the request `"r1"` with valid text
`"hello"` whose synthesis produces no usable output artifact
(`engineOut = none`), the code emits no `error` message at all and does
emit a `synthesis_complete` message — the generator yields a single empty
byte string, the streaming loop skips it, and the completion message goes
out with zero counters. -/
theorem error_on_failure_counterexample :
    (synthesize_and_stream "r1" "hello"
        (text_to_speech_stream "hello" 4096 none) 0 none).countP
      OutMsg.isError = 0
    ∧ (synthesize_and_stream "r1" "hello"
        (text_to_speech_stream "hello" 4096 none) 0 none).countP
      OutMsg.isComplete = 1 := by
  decide

/-- Claim C2 amended: when a `websocket.send` raises mid-stream the server
emits a single `error` message carrying the request's id and no
`synthesis_complete`; but when synthesis fails (engine failure or missing
output artifact) the server emits no `error` at all and instead emits
`synthesis_complete` with `total_chunks = 0` and `total_size = 0`. -/
theorem error_on_write_failure_only :
    (∀ (request_id text : String) (chunks : List (List Nat)) (now k : Nat)
      (e : String), 1 ≤ k →
      k ≤ (attemptedSends request_id text chunks now).length →
      (synthesize_and_stream request_id text chunks now
          (some (k, e))).filterMap errorOf
        = [(request_id, "音频流发送失败: " ++ e)]
      ∧ (synthesize_and_stream request_id text chunks now
          (some (k, e))).countP OutMsg.isComplete = 0)
    ∧ (∀ (request_id text : String) (c now : Nat),
      synthesize_and_stream request_id text
          (text_to_speech_stream text c none) now none
        = [.synthesis_start request_id text.length now,
           .synthesis_complete request_id 0 0 now]) := by
  constructor
  · intro request_id text chunks now k e hk1 hk2
    have hrw : synthesize_and_stream request_id text chunks now (some (k, e))
        = (attemptedSends request_id text chunks now).take (k - 1)
          ++ [.error request_id ("音频流发送失败: " ++ e) now] := by
      unfold synthesize_and_stream
      dsimp only
      rw [if_pos (⟨hk1, hk2⟩ :
        1 ≤ k ∧ k ≤ (attemptedSends request_id text chunks now).length)]
    rw [attemptedSends_eq] at hk2 hrw
    rw [List.length_append, List.length_cons, List.length_singleton] at hk2
    rw [List.take_append_eq_append_take] at hrw
    have hz : k - 1 - (OutMsg.synthesis_start request_id text.length now
        :: expectedAudio request_id 0 0
          (chunks.filter (fun c => !c.isEmpty))).length = 0 := by
      rw [List.length_cons]
      omega
    rw [hz, List.take_zero, List.append_nil] at hrw
    have hmem : ∀ m ∈ (OutMsg.synthesis_start request_id text.length now
        :: expectedAudio request_id 0 0
          (chunks.filter (fun c => !c.isEmpty))).take (k - 1),
        errorOf m = none ∧ m.isComplete = false := by
      intro m hm
      rcases List.mem_cons.mp (List.take_subset _ _ hm) with h | h
      · subst h; exact ⟨rfl, rfl⟩
      · have ha := expectedAudio_mem request_id _ _ _ m h
        exact ⟨isAudioChunk_errorOf m ha, isAudioChunk_not_complete m ha⟩
    rw [hrw]
    constructor
    · rw [List.filterMap_append,
        List.filterMap_eq_nil_iff.mpr (fun m hm => (hmem m hm).1)]
      rfl
    · rw [List.countP_append,
        List.countP_eq_zero.mpr (fun m hm => by simp [(hmem m hm).2])]
      rfl
  · intro request_id text c now
    rw [tts_stream_engine_failure]
    rfl

/-- Witness for the amended C2: the second send (the only audio chunk of a
one-byte result) fails with exception text `"boom"`. -/
theorem error_on_write_failure_only_witness :
    (1 ≤ 2 ∧ 2 ≤ (attemptedSends "r" "ab" [[1]] 0).length) ∧
    ((synthesize_and_stream "r" "ab" [[1]] 0
        (some (2, "boom"))).filterMap errorOf
      = [("r", "音频流发送失败: boom")]
    ∧ (synthesize_and_stream "r" "ab" [[1]] 0
        (some (2, "boom"))).countP OutMsg.isComplete = 0) :=
  ⟨⟨by decide, by decide⟩,
    error_on_write_failure_only.1 "r" "ab" [[1]] 0 2 "boom"
      (by decide) (by decide)⟩

/-- Claim C4: a synthesize request whose text is empty/whitespace-only or
longer than 10,000 characters is answered with exactly one `error` message
(the length error names the 10000 limit) and no `audio_chunk` or
`synthesis_complete`; the pipeline is never entered. -/
theorem validation_rejects_blank_and_long (env : Env)
    (request_id text : String)
    (h : isBlank text = true ∨ 10000 < text.length) :
    ((handle_synthesis_request env text request_id).countP OutMsg.isError = 1
      ∧ (handle_synthesis_request env text request_id).countP
          OutMsg.isAudioChunk = 0
      ∧ (handle_synthesis_request env text request_id).countP
          OutMsg.isComplete = 0)
    ∧ (isBlank text = true →
        handle_synthesis_request env text request_id
          = [.error request_id "文本内容不能为空" env.now])
    ∧ (isBlank text = false →
        handle_synthesis_request env text request_id
          = [.error request_id "文本长度超过限制(10000字符)" env.now]) := by
  by_cases hb : isBlank text = true
  · have he : handle_synthesis_request env text request_id
        = [.error request_id "文本内容不能为空" env.now] := by
      unfold handle_synthesis_request
      rw [if_pos hb]
    refine ⟨?_, fun _ => he, fun hc => absurd hb (by simp [hc])⟩
    rw [he]
    refine ⟨rfl, rfl, rfl⟩
  · have hlen : 10000 < text.length := h.resolve_left hb
    have he : handle_synthesis_request env text request_id
        = [.error request_id "文本长度超过限制(10000字符)" env.now] := by
      unfold handle_synthesis_request
      rw [if_neg hb, if_pos hlen]
    refine ⟨?_, fun hc => absurd hc hb, fun _ => he⟩
    rw [he]
    refine ⟨rfl, rfl, rfl⟩

/-- Witness for C4: a single-space text is rejected as blank. -/
theorem validation_rejects_blank_and_long_witness :
    (isBlank " " = true ∨ 10000 < " ".length) ∧
    (((handle_synthesis_request ⟨"f", none, none,
          ⟨150, 9 / 10, 0, "v", 1, [(0, "v")]⟩, 0⟩ " " "r").countP
        OutMsg.isError = 1
      ∧ (handle_synthesis_request ⟨"f", none, none,
          ⟨150, 9 / 10, 0, "v", 1, [(0, "v")]⟩, 0⟩ " " "r").countP
        OutMsg.isAudioChunk = 0
      ∧ (handle_synthesis_request ⟨"f", none, none,
          ⟨150, 9 / 10, 0, "v", 1, [(0, "v")]⟩, 0⟩ " " "r").countP
        OutMsg.isComplete = 0)
    ∧ (isBlank " " = true →
        handle_synthesis_request ⟨"f", none, none,
          ⟨150, 9 / 10, 0, "v", 1, [(0, "v")]⟩, 0⟩ " " "r"
          = [.error "r" "文本内容不能为空" 0])
    ∧ (isBlank " " = false →
        handle_synthesis_request ⟨"f", none, none,
          ⟨150, 9 / 10, 0, "v", 1, [(0, "v")]⟩, 0⟩ " " "r"
          = [.error "r" "文本长度超过限制(10000字符)" 0])) :=
  ⟨Or.inl (by decide),
    validation_rejects_blank_and_long ⟨"f", none, none,
      ⟨150, 9 / 10, 0, "v", 1, [(0, "v")]⟩, 0⟩ "r" " "
      (Or.inl (by decide))⟩

/-- Claim C5: an unparsable inbound payload is answered with exactly one
`error` whose request id is the literal `"invalid"`; the connection is not
closed: the message loop continues and a subsequent valid message (a ping)
is processed normally. -/
theorem malformed_payload_recoverable (env : Env)
    (rest : List (Env × Inbound)) :
    handle_message env .malformed
      = [.error "invalid" "无效的JSON格式" env.now]
    ∧ handle_messages ((env, .malformed) :: rest)
      = .error "invalid" "无效的JSON格式" env.now :: handle_messages rest
    ∧ ∀ (env2 : Env) (rid : String),
        handle_messages [(env, .malformed),
          (env2, .parsed (some "ping") (some rid) none)]
          = [.error "invalid" "无效的JSON格式" env.now,
             .pong rid env2.now] := by
  refine ⟨rfl, rfl, fun env2 rid => ?_⟩
  rfl

/-- Claim C6: a decodable message whose `type` is none of `synthesize`,
`get_voices`, `ping` is answered with an `error` that names the unknown
type and echoes the request's request id, and the session loop keeps
processing further messages. -/
theorem unknown_type_error (env : Env) (t rid : String)
    (txt : Option String) (rest : List (Env × Inbound))
    (h1 : t ≠ "synthesize") (h2 : t ≠ "get_voices") (h3 : t ≠ "ping") :
    handle_message env (.parsed (some t) (some rid) txt)
      = [.error rid ("未知的消息类型: " ++ t) env.now]
    ∧ handle_messages ((env, .parsed (some t) (some rid) txt) :: rest)
      = .error rid ("未知的消息类型: " ++ t) env.now
          :: handle_messages rest := by
  have he : handle_message env (.parsed (some t) (some rid) txt)
      = [.error rid ("未知的消息类型: " ++ t) env.now] := by
    unfold handle_message
    simp only [Option.getD_some]
    rw [if_neg h1, if_neg h2, if_neg h3]
  exact ⟨he, by rw [show handle_messages
    ((env, .parsed (some t) (some rid) txt) :: rest)
    = handle_message env (.parsed (some t) (some rid) txt)
      ++ handle_messages rest from rfl, he]; rfl⟩

/-- Witness for C6: inbound type `"bogus"`. -/
theorem unknown_type_error_witness :
    ("bogus" ≠ "synthesize" ∧ "bogus" ≠ "get_voices" ∧ "bogus" ≠ "ping") ∧
    (handle_message ⟨"f", none, none,
        ⟨150, 9 / 10, 0, "v", 1, [(0, "v")]⟩, 0⟩
        (.parsed (some "bogus") (some "X") none)
      = [.error "X" ("未知的消息类型: " ++ "bogus") 0]
    ∧ handle_messages [(⟨"f", none, none,
        ⟨150, 9 / 10, 0, "v", 1, [(0, "v")]⟩, 0⟩,
        .parsed (some "bogus") (some "X") none)]
      = .error "X" ("未知的消息类型: " ++ "bogus") 0 :: handle_messages []) :=
  ⟨⟨by decide, by decide, by decide⟩,
    unknown_type_error ⟨"f", none, none,
      ⟨150, 9 / 10, 0, "v", 1, [(0, "v")]⟩, 0⟩ "bogus" "X" none []
      (by decide) (by decide) (by decide)⟩

/-- Claim C10: a synthesize message with no `text` field is handled exactly
like one with empty text: `data.get('text', '')` defaults to the empty
string, which fails the blank check, so the reply is the single empty-text
validation error under the echoed (or freshly generated) request id, with
no `audio_chunk`/`synthesis_complete`, and the session loop continues. -/
theorem missing_text_is_empty_text (env : Env) (rid : Option String)
    (rest : List (Env × Inbound)) :
    handle_message env (.parsed (some "synthesize") rid none)
      = handle_message env (.parsed (some "synthesize") rid (some ""))
    ∧ handle_message env (.parsed (some "synthesize") rid none)
      = [.error (rid.getD env.freshId) "文本内容不能为空" env.now]
    ∧ handle_messages ((env, .parsed (some "synthesize") rid none) :: rest)
      = .error (rid.getD env.freshId) "文本内容不能为空" env.now
          :: handle_messages rest := by
  have he : handle_message env (.parsed (some "synthesize") rid none)
      = [.error (rid.getD env.freshId) "文本内容不能为空" env.now] := by
    unfold handle_message handle_synthesis_request
    simp only [Option.getD_some, Option.getD_none, if_pos]
    rw [if_pos (by decide : isBlank "" = true)]
  refine ⟨?_, he, ?_⟩
  · rfl
  · rw [show handle_messages
      ((env, .parsed (some "synthesize") rid none) :: rest)
      = handle_message env (.parsed (some "synthesize") rid none)
        ++ handle_messages rest from rfl, he]
    rfl

/-- Claim C7 counterexample: the `welcome` dict literal has no
`request_id` key (it has `connection_id`), and the `audio_chunk` dict
literal has no `timestamp` key. -/
theorem envelope_fields_counterexample :
    "request_id" ∉ (OutMsg.welcome "c" "流式语音合成服务" "1.0.0" ["wav"]
        ⟨150, 9 / 10, 0, "v", 1, [(0, "v")]⟩ 0).keys
    ∧ "timestamp" ∉ (OutMsg.audio_chunk "r" 1 [1] 1 1 false).keys := by
  decide

/-- Claim C7 amended: every outbound message carries `type`; every message
except `welcome` carries `request_id` (`welcome` carries `connection_id`
instead); every message except `audio_chunk` carries `timestamp`. -/
theorem envelope_fields_amended (m : OutMsg) :
    "type" ∈ m.keys
    ∧ (m.isWelcome = false → "request_id" ∈ m.keys)
    ∧ (m.isAudioChunk = false → "timestamp" ∈ m.keys)
    ∧ (m.isWelcome = true → "connection_id" ∈ m.keys) := by
  cases m <;>
    refine ⟨?_, ?_, ?_, ?_⟩ <;>
    simp [OutMsg.keys, OutMsg.isWelcome, OutMsg.isAudioChunk]

/-- Witness for the amended C7, at a `pong` message. -/
theorem envelope_fields_amended_witness :
    "type" ∈ (OutMsg.pong "x" 0).keys
    ∧ "request_id" ∈ (OutMsg.pong "x" 0).keys
    ∧ "timestamp" ∈ (OutMsg.pong "x" 0).keys :=
  ⟨(envelope_fields_amended (.pong "x" 0)).1,
   (envelope_fields_amended (.pong "x" 0)).2.1 (by decide),
   (envelope_fields_amended (.pong "x" 0)).2.2.1 (by decide)⟩

/-- Claim C8: the scratch temp file never outlives one call of the
streaming operation.  On every path — blank text (no file is created),
synthesis success, engine failure, missing artifact, read failure — the
final file set equals the initial one, and the yielded chunks agree with
the pure model. -/
theorem scratch_file_cleanup (text : String) (chunk_size : Nat)
    (engineOut : Option (List Nat)) (fs : List String) (tmp : String) :
    text_to_speech_stream_fs text chunk_size engineOut fs tmp
      = (text_to_speech_stream text chunk_size engineOut, fs) := by
  unfold text_to_speech_stream_fs text_to_speech_stream
  split
  · rfl
  · simp [List.erase_cons_head]

/-- Claim C9, code evaluation at the failing input: the shutdown signal
runs `graceful_shutdown`, whose `stop_server` call only stops the TTS
engine — the listener opened by `start_server` is still accepting
connections afterwards. -/
theorem stop_server_keeps_accepting :
    (graceful_shutdown ⟨true, start_server ⟨false, true⟩⟩).server.accepting
      = true
    ∧ (graceful_shutdown ⟨true, start_server ⟨false, true⟩⟩).server
      = ⟨true, false⟩ := by
  exact ⟨rfl, rfl⟩
